import Mathlib

/-!
Shallow embedding of `execute_batch_scheduler` (files `backends.py` and
`execute_magic.py`) and proofs about its specified behaviour.

Python strings are modelled as Lean `String`, Python `None`-able values as
`Option`, raised exceptions as `Except PyErr`, and the external world
(spawned processes, the scheduler status command, the file system) as
explicit oracle arguments.  The Python string primitives used by the code
(`find`, `split`, `replace`, `int()`) are given executable list-based
models so that concrete runs reduce inside the kernel.
-/

set_option autoImplicit false

deriving instance DecidableEq for Except

namespace BatchSched

/-! ## Python string primitives -/

/-- Characters Python `int()` / `str.strip` treat as whitespace. -/
def isPyWhitespace (c : Char) : Bool :=
  c = ' ' || c = '\t' || c = '\n' || c = '\r' || c = '\x0b' || c = '\x0c'

/-- Strip whitespace from both ends of a character list. -/
def trimList (l : List Char) : List Char :=
  ((l.dropWhile isPyWhitespace).reverse.dropWhile isPyWhitespace).reverse

/-- Left-to-right non-overlapping split of a character list on a separator,
accumulating the current fragment in reverse.  Fuelled structurally (one
unit of fuel per consumed character) so that it reduces in the kernel. -/
def splitListAux (sep : List Char) : Nat → List Char → List Char → List (List Char)
  | _, [], acc => [acc.reverse]
  | 0, _ :: _, acc => [acc.reverse]
  | fuel + 1, c :: rest, acc =>
      if sep.isPrefixOf (c :: rest) then
        acc.reverse :: splitListAux sep fuel (List.drop (sep.length - 1) rest) []
      else splitListAux sep fuel rest (c :: acc)

/-- Does `needle` occur inside the list (Python `find(...) >= 0`)? -/
def containsList (needle : List Char) : List Char → Bool
  | [] => needle.isPrefixOf ([] : List Char)
  | c :: rest => needle.isPrefixOf (c :: rest) || containsList needle rest

/-- Left-to-right non-overlapping replacement of `old` by `new`, fuelled
structurally so that it reduces in the kernel. -/
def replaceListAux (old new : List Char) : Nat → List Char → List Char
  | _, [] => []
  | 0, l => l
  | fuel + 1, c :: rest =>
      if old.isPrefixOf (c :: rest) then
        if old.isEmpty then c :: replaceListAux old new fuel rest
        else new ++ replaceListAux old new fuel (List.drop (old.length - 1) rest)
      else c :: replaceListAux old new fuel rest

/-- Model of Python `s.find(marker) == 0` (marker nonempty): `s` starts
with `marker`. -/
def pyStartsWith (s marker : String) : Bool :=
  marker.data.isPrefixOf s.data

/-- Model of Python `haystack.find(needle) >= 0`. -/
def pyContains (haystack needle : String) : Bool :=
  containsList needle.data haystack.data

/-- Model of Python `s.split(sep)` for a one-character (or any nonempty)
separator. -/
def pySplit (s sep : String) : List String :=
  (splitListAux sep.data s.data.length s.data []).map (fun l => ⟨l⟩)

/-- Model of Python `s.replace(old, new)`. -/
def pyReplace (s old new : String) : String :=
  ⟨replaceListAux old.data new.data s.data.length s.data⟩

/-- Value of a nonempty all-digit character list. -/
def digitsVal (l : List Char) : Option Nat :=
  if l.isEmpty then none
  else if l.all Char.isDigit then
    some (l.foldl (fun a c => a * 10 + (c.toNat - 48)) 0)
  else none

/-- Model of Python `int(s)`: strip surrounding whitespace, accept an
optional sign followed by digits, otherwise raise (here: `none`). -/
def pyInt (s : String) : Option Int :=
  match trimList s.data with
  | '-' :: rest => (digitsVal rest).map (fun n => -(n : Int))
  | '+' :: rest => (digitsVal rest).map (fun n => (n : Int))
  | l => (digitsVal l).map (fun n => (n : Int))

/-- Decimal digits of `n` given enough fuel. -/
def natDigitsAux : Nat → Nat → List Char
  | 0, _ => []
  | fuel + 1, n =>
      if n < 10 then [Char.ofNat (48 + n)]
      else natDigitsAux fuel (n / 10) ++ [Char.ofNat (48 + n % 10)]

/-- Model of Python `str(i)` for an integer. -/
def intStr (i : Int) : String :=
  match i with
  | .ofNat n => ⟨natDigitsAux (n + 1) n⟩
  | .negSucc m => ⟨'-' :: natDigitsAux (m + 2) (m + 1)⟩

/-! ## Python runtime values -/

/-- Python exceptions that the modelled code can raise or propagate. -/
inductive PyErr where
  | nameError : PyErr
  | valueError : PyErr
  | typeError : PyErr
  | attributeError : PyErr
  | osError : Nat → PyErr
deriving DecidableEq, Repr

/-- Errno value for a missing executable (`errno.ENOENT`). -/
def ENOENT : Nat := 2

/-- Python truthiness of an optional string (`None` and `""` are falsy),
the model of `if self._args_jobid:` style tests. -/
def pyTruthy (s : Option String) : Bool :=
  match s with
  | none => false
  | some v => v != ""

/-- Python value returned by a backend `get_output`: either a 2-tuple of
optional strings or the bare scalar `None`. -/
inductive PyRet where
  | pair : Option String → Option String → PyRet
  | scalarNone : PyRet
deriving DecidableEq, Repr

/-- Association-list lookup modelling a Python dict read; entries added
later are consed on the front, so the first hit wins. -/
def assocLookup (l : List (String × Int)) (k : String) : Option Int :=
  match l with
  | [] => none
  | (a, b) :: t => if a = k then some b else assocLookup t k

/-! ## `BaseMgr._print_step_and_wait` (the progress stepper) -/

/-- The ordered `(limit, interval, glyph)` table of
`BaseMgr._print_step_and_wait`; the last limit is the source's `1e12`
sentinel. -/
def stepTable : List (Nat × Nat × Char) :=
  [(10, 1, '.'), (20, 10, 'o'), (30, 60, 'O'), (1000000000000, 600, '@')]

/-- `[v for v in table if s < v[0]][0]`: the first table row whose limit
exceeds `s`; `none` models the `IndexError` on an empty comprehension. -/
def selectStep (s : Nat) : Option (Nat × Nat × Char) :=
  (stepTable.filter (fun v => s < v.1)).head?

/-- `BaseMgr._print_step_and_wait`: pick the row for step count `s`, emit
the glyph when `s` is below the chosen limit (and not silent) and sleep the
row's interval.  Returns `(emitted glyph, seconds slept)`; `none` models
the `IndexError` when no row matches. -/
def printStepAndWait (s : Nat) (silent : Bool) : Option (Option Char × Nat) :=
  match selectStep s with
  | none => none
  | some (l, t, c) =>
      if s < l then some ((if silent then none else some c), t)
      else some (none, 0)

/-! ## `BaseMgr._interrupt` (the escalation ladder) -/

/-- Signals the escalation ladder can issue, in source order
`SIGINT`, `terminate`, `kill`. -/
inductive Sig where
  | sigint : Sig
  | term : Sig
  | kill : Sig
deriving DecidableEq, Repr

/-- Oracle for one live process during `_interrupt`: the outcome of each
signalling call (`ok` or an `OSError` errno) and of each liveness poll
(`some code` means the process has exited). -/
structure ProcOracle where
  sigintRes : Except Nat Unit
  poll1 : Option Int
  terminateRes : Except Nat Unit
  poll2 : Option Int
  killRes : Except Nat Unit

/-- Result of `BaseMgr._interrupt`: the signals attempted in order, the
message printed, and whether an `OSError` was caught and swallowed. -/
structure InterruptResult where
  issued : List Sig
  message : Option String
  osErrorCaught : Bool
deriving DecidableEq, Repr

/-- `BaseMgr._interrupt`: send `SIGINT`, sleep 0.1s, stop if a poll shows
the process exited; else `terminate`, sleep 0.1s, re-poll; else `kill`.
`OSError` from any signalling call is caught and swallowed (the function
always returns normally). -/
def interruptRun (o : ProcOracle) : InterruptResult :=
  match o.sigintRes with
  | .error _ => ⟨[.sigint], none, true⟩
  | .ok _ =>
    match o.poll1 with
    | some _ => ⟨[.sigint], some "Process is interrupted.", false⟩
    | none =>
      match o.terminateRes with
      | .error _ => ⟨[.sigint, .term], none, true⟩
      | .ok _ =>
        match o.poll2 with
        | some _ => ⟨[.sigint, .term], some "Process is terminated.", false⟩
        | none =>
          match o.killRes with
          | .error _ => ⟨[.sigint, .term, .kill], none, true⟩
          | .ok _ => ⟨[.sigint, .term, .kill], some "Process is killed.", false⟩

/-! ## Process spawning (`Popen` with the shared `ENOENT` guard) -/

/-- A spawned process: its pid, the result of a (single) liveness poll and
the contents of its captured output streams. -/
structure Proc where
  pid : Nat
  pollResult : Option Int
  stdoutContent : String
  stderrContent : String
deriving DecidableEq, Repr

/-- The shared `try: Popen(...) except OSError` pattern of
`BasicMgr.__init__`, `SlurmMgr.__init__` and `SSHMgr.submit`: a missing
executable (`ENOENT`) prints a diagnostic and returns normally with no
process; any other spawn `OSError` is re-raised unchanged. -/
def spawnGuard (cmd0 : String) (res : Except Nat Proc) :
    Except PyErr (Option Proc × List String) :=
  match res with
  | .ok p => .ok (some p, [])
  | .error e =>
      if e = ENOENT then
        .ok (none, ["Couldn\x27t find program: " ++ cmd0])
      else .error (.osError e)

/-! ## `BasicMgr` (local backend) -/

/-- Mutable state of a `BasicMgr` instance relevant to submit/get_output:
the memoized cell output (`self.out`, `self.err`). -/
structure BasicState where
  cmd : List String
  p : Option Proc
  out : Option String
  err : Option String
deriving DecidableEq, Repr

/-- `BasicMgr.__init__`: build `['bash'] + args` and spawn it behind the
`ENOENT` guard; on a missing executable the constructor returns normally
with no process and the handle never gets further. -/
def basicInit (args : List String) (spawn : List String → Except Nat Proc) :
    Except PyErr (BasicState × List String) :=
  let cmd := ["bash"] ++ args
  match spawnGuard (cmd.headD "") (spawn cmd) with
  | .error e => .error e
  | .ok (pOpt, diags) =>
      .ok ({ cmd := cmd, p := pOpt, out := none, err := none }, diags)

/-- `BasicMgr.submit` after `communicate` returned `(commOut, commErr)`:
memoize both streams and return them. -/
def basicSubmit (commOut commErr : String) (st : BasicState) :
    BasicState × PyRet :=
  let st' : BasicState := { st with out := some commOut, err := some commErr }
  (st', .pair st'.out st'.err)

/-- `BasicMgr.wait_progress`: a pass. -/
def basicWaitProgress (st : BasicState) : BasicState := st

/-- `BasicMgr.get_output`: `return None, None` unconditionally. -/
def basicGetOutput (_st : BasicState) : Option String × Option String :=
  (none, none)

/-! ## `SSHMgr` (remote backend) -/

/-- Mutable state of an `SSHMgr` instance: the command built in
`__init__`, the spawned process, the termination flag and the memoized
output.  `__init__` does not store the parsed `_args` on `self`. -/
structure SSHState where
  cmd : List String
  is_terminated : Bool
  p : Option Proc
  out : Option String
  err : Option String
deriving DecidableEq, Repr

/-- `SSHMgr.__init__`: build `['ssh', '-n', host] + rest`; the `Popen`
instance is created later, in `submit`.  The parsed argument object is a
local of `__init__` and is not saved on the instance. -/
def sshInit (host : String) (rest : List String) : SSHState :=
  { cmd := ["ssh", "-n"] ++ [host] ++ rest
    is_terminated := false
    p := none
    out := none
    err := none }

/-- `SSHMgr.get_output`: when terminated, read both streams to the end
once and memoize; before termination `return None` (the bare scalar, not a
pair). -/
def sshGetOutput (st : SSHState) : Except PyErr (SSHState × PyRet) :=
  if st.is_terminated then
    if st.out.isNone && st.err.isNone then
      match st.p with
      | none => .error .attributeError
      | some p =>
          let st' : SSHState :=
            { st with out := some p.stdoutContent, err := some p.stderrContent }
          .ok (st', .pair st'.out st'.err)
    else .ok (st, .pair st.out st.err)
  else .ok (st, .scalarNone)

/-- Argument vector `SSHMgr.submit` spawns: the stored command with the
cell content appended as the single final argument. -/
def sshSpawnArgv (st : SSHState) (content : String) : List String :=
  st.cmd ++ [content]

/-- `SSHMgr.submit`: spawn `self.cmd + [content]` (with the `ENOENT`
guard), then poll once.  If the process is still alive the next statement
is `if _args.pid:` — but `_args` is a local of `__init__`, not an
attribute, so a `NameError` is raised.  If the process already exited the
job is marked terminated and `get_output` is returned eagerly. -/
def sshSubmit (content : String) (spawn : List String → Except Nat Proc)
    (st : SSHState) : Except PyErr (SSHState × PyRet × List String) :=
  let st1 : SSHState := { st with is_terminated := false }
  match spawnGuard (st1.cmd.headD "") (spawn (sshSpawnArgv st1 content)) with
  | .error e => .error e
  | .ok (none, diags) => .ok (st1, .scalarNone, diags)
  | .ok (some p, diags) =>
      let st2 : SSHState := { st1 with p := some p }
      match p.pollResult with
      | none => .error .nameError
      | some _ =>
          let st3 : SSHState := { st2 with is_terminated := true }
          match sshGetOutput st3 with
          | .error e => .error e
          | .ok (st4, r) => .ok (st4, r, diags)

/-- `SSHMgr.wait_progress`: poll liveness with the running cadence until
the process exits, then mark terminated.  The scripted `polls` list gives
successive poll answers; `none` models an exhausted script (the loop would
still be running). -/
def sshWaitPoll (silent : Bool) : List (Option Int) → Nat → SSHState →
    Option (SSHState × Nat)
  | [], _, _ => none
  | r :: rest, steps, st =>
      match r with
      | some _ => some ({ st with is_terminated := true }, steps)
      | none =>
          match printStepAndWait (steps + 1) silent with
          | none => none
          | some _ => sshWaitPoll silent rest (steps + 1) st

/-! ## `SlurmMgr` (cluster backend) -/

/-- The three status vocabularies of `SlurmMgr`. -/
def end_states : List String :=
  ["CANCELLED", "COMPLETED", "FAILED", "NODE_FAIL", "PREEMPTED", "TIMEOUT"]

/-- States classified as waiting in the queue. -/
def wait_states : List String := ["CONFIGURING", "PENDING"]

/-- States classified as running. -/
def run_states : List String := ["COMPLETING", "RUNNING", "SUSPENDED"]

/-- `all([jobstate.find(s) < 0 for s in _end_states])` negated: the raw
status string contains some end-bucket word. -/
def classifyEnd (js : String) : Bool := end_states.any (fun s => pyContains js s)

/-- The raw status string contains some wait-bucket word. -/
def classifyWait (js : String) : Bool := wait_states.any (fun s => pyContains js s)

/-- The raw status string contains some run-bucket word. -/
def classifyRun (js : String) : Bool := run_states.any (fun s => pyContains js s)

/-- Mutable state of a `SlurmMgr` instance. -/
structure SlurmState where
  outerr_files : String
  cmd : List String
  args_jobid : Option String
  userns : List (String × Int)
  p : Option Proc
  is_started : Bool
  is_terminated : Bool
  waiting_steps : Nat
  running_steps : Nat
  jobid : Int
  out : Option String
  err : Option String
deriving DecidableEq, Repr

/-- Join a list of strings with a separator (model of `" ".join(cmd)`). -/
def joinWith (sep : String) : List String → String
  | [] => ""
  | [x] => x
  | x :: y :: rest => x ++ sep ++ joinWith sep (y :: rest)

/-- `SlurmMgr.__init__`: build
`['sbatch', '-n', '1'] + cmd + ['--output=...', '--error=...']`, remember
the `--jobid` export variable, and spawn behind the `ENOENT` guard. -/
def slurmInit (outerr : String) (cmdRest : List String)
    (ajobid : Option String) (spawn : List String → Except Nat Proc) :
    Except PyErr (SlurmState × List String) :=
  let cmd := ["sbatch", "-n", "1"] ++ cmdRest ++
      ["--output=" ++ outerr ++ ".out", "--error=" ++ outerr ++ ".err"]
  match spawnGuard (cmd.headD "") (spawn cmd) with
  | .error e => .error e
  | .ok (pOpt, diags) =>
      .ok ({ outerr_files := outerr
             cmd := cmd
             args_jobid := ajobid
             userns := []
             p := pOpt
             is_started := false
             is_terminated := false
             waiting_steps := 0
             running_steps := 0
             jobid := 0
             out := none
             err := none }, diags)

/-- `SlurmMgr.submit` after `communicate` returned `(commOut, commErr)`:
parse the acknowledgment.  If it starts with `"Submitted batch job"` the
last space-separated token is fed to `int()` (a non-numeric token raises
`ValueError`), the id is stored, `_is_started` is set and the id is
exported into the user namespace when `--jobid` named a variable;
otherwise an error line is written and `_is_terminated` is set. -/
def slurmSubmit (commOut commErr : String) (st : SlurmState) :
    Except PyErr (SlurmState × (String × String) × List String) :=
  let st0 : SlurmState := { st with jobid := 0 }
  if pyStartsWith commOut "Submitted batch job" then
    match pyInt ((pySplit commOut " ").getLastD "") with
    | none => .error .valueError
    | some j =>
        let st1 : SlurmState := { st0 with jobid := j, is_started := true }
        let st2 : SlurmState :=
          if pyTruthy st1.args_jobid then
            { st1 with userns := (st1.args_jobid.getD "", j) :: st1.userns }
          else st1
        .ok (st2, (commOut, commErr), [])
  else
    .ok ({ st0 with is_terminated := true }, (commOut, commErr),
         ["Error during job submission\n"])

/-- `BaseMgr._step_waiting`: bump the waiting counter, then step the
progress printer with the new count. -/
def stepWaiting (silent : Bool) (st : SlurmState) : Option SlurmState :=
  let n := st.waiting_steps + 1
  (printStepAndWait n silent).map (fun _ => { st with waiting_steps := n })

/-- `BaseMgr._step_running`: bump the running counter, then step the
progress printer with the new count. -/
def stepRunning (silent : Bool) (st : SlurmState) : Option SlurmState :=
  let n := st.running_steps + 1
  (printStepAndWait n silent).map (fun _ => { st with running_steps := n })

/-- The polling loop of `SlurmMgr.wait_progress`: classify the current
raw status string; stop on an end-bucket word, otherwise take a waiting
step and/or a running step as classified and query the next scripted
status.  `none` models an exhausted script (the loop would still be
polling) or a progress-printer `IndexError`. -/
def slurmWaitLoop (silent : Bool) : List String → String → SlurmState →
    Option SlurmState
  | script, js, st =>
      if classifyEnd js then some st
      else
        match (if classifyWait js then stepWaiting silent st else some st) with
        | none => none
        | some st1 =>
          match (if classifyRun js then stepRunning silent st1 else some st1) with
          | none => none
          | some st2 =>
            match script with
            | [] => none
            | js2 :: rest => slurmWaitLoop silent rest js2 st2

/-- `SlurmMgr.wait_progress`: a no-op unless the job started; otherwise
query the first status and run the polling loop, then mark terminated.
`script` lists the successive answers of `_get_job_state`. -/
def slurmWaitProgress (silent : Bool) (script : List String)
    (st : SlurmState) : Option SlurmState :=
  if st.is_started then
    match script with
    | [] => none
    | js :: rest =>
        (slurmWaitLoop silent rest js st).map
          (fun st2 => { st2 with is_terminated := true })
  else some st

/-- The file-reading block of `SlurmMgr.get_output` (the two `try` blocks
and the final assignment): a missing out-file prints a diagnostic and sets
the local `job_err` to `""` (the source's slip — `job_out` was already
initialized), a missing err-file prints a diagnostic but assigns nothing,
and the final `self.out, self.err = job_out, job_err` raises `NameError`
whenever `job_err` ended up unbound. -/
def readResultFiles (fs : String → Option String)
    (job_out_f job_err_f : String) :
    Except PyErr (String × String × List String) :=
  let r1 : String × Option String × List String :=
    match fs job_out_f with
    | some c => (c, none, [])
    | none => ("", some "", ["File not found : " ++ job_out_f ++ "\n"])
  let r2 : Option String × List String :=
    match fs job_err_f with
    | some c => (some c, [])
    | none => (r1.2.1, ["File not found : " ++ job_err_f ++ "\n"])
  match r2.1 with
  | none => .error .nameError
  | some je => .ok (r1.1, je, r1.2.2 ++ r2.2)

/-- `SlurmMgr.get_output` proper: only acts when started and terminated;
re-queries the final state for the `COMPLETED` diagnostic, derives both
file names from the template and the job id, reads them once (see
`readResultFiles`) and memoizes. -/
def slurmGetOutput (finalState : String) (fs : String → Option String)
    (st : SlurmState) :
    Except PyErr (SlurmState × (Option String × Option String) × List String) :=
  if st.is_started && st.is_terminated then
    let diag0 : List String :=
      if pyContains finalState "COMPLETED" then []
      else ["Slurm command was : " ++ joinWith " " st.cmd ++ "\n"]
    let job_f := pyReplace st.outerr_files "%J" (intStr st.jobid)
    if st.out.isNone && st.err.isNone then
      match readResultFiles fs (job_f ++ ".out") (job_f ++ ".err") with
      | .error exc => .error exc
      | .ok (jo, je, ds) =>
          let st' : SlurmState := { st with out := some jo, err := some je }
          .ok (st', (some jo, some je), diag0 ++ ds)
    else .ok (st, (st.out, st.err), diag0)
  else .ok (st, (none, none), [])

/-! ## `ExecuteMagics.execute` (the orchestrator) -/

/-- The closed set of backends registered in `ExecuteMagics._wlmgr`. -/
inductive BackendName where
  | basic : BackendName
  | ssh : BackendName
  | slurm : BackendName
deriving DecidableEq, Repr

/-- Positional Python argument values passed to a backend constructor. -/
inductive PyVal where
  | strv : String → PyVal
  | listv : List String → PyVal
  | nsv : PyVal
deriving DecidableEq, Repr

/-- Required positional parameters (besides `self`) of every backend
`__init__` in `backends.py`: `args`, `shell`, `userns`. -/
def ctorRequired (_b : BackendName) : Nat := 3

/-- The `_wlmgr` registry of `ExecuteMagics`. -/
def wlmgrRegistry : List (String × BackendName) :=
  [("", .basic), ("ssh", .ssh), ("slurm", .slurm)]

/-- `self._wlmgr[args.wlm]` (a missing key would raise `KeyError`). -/
def registryLookup (k : String) : Option BackendName :=
  (wlmgrRegistry.find? (fun kv => kv.1 = k)).map (fun kv => kv.2)

/-- Python call semantics for a backend constructor: raises `TypeError`
unless exactly the required positional arguments are supplied. -/
def pyCallCtor (b : BackendName) (posArgs : List PyVal) :
    Except PyErr BackendName :=
  if posArgs.length = ctorRequired b then .ok b else .error .typeError

/-- Value of the configured `_DEFAULT_LINE_CMD_ARGS` (read from the
package `__init__`, outside `src/`): either a dict keyed by backend name
or a single argument string, both with `arg_split` already applied. -/
inductive ConfigArgs where
  | dict : List (String × List String) → ConfigArgs
  | args : List String → ConfigArgs
deriving DecidableEq, Repr

/-- The `extra_cmd` computation of `ExecuteMagics.execute`: default extra
arguments apply only when the default backend name was selected. -/
def extraCmd (wlm defaultMgr : String) (cfg : ConfigArgs) : List String :=
  if wlm = defaultMgr then
    match cfg with
    | .dict kv =>
        (((kv.find? (fun pr => pr.1 = wlm)).map (fun pr => pr.2)).getD [])
    | .args a => a
  else []

/-- The constructor call of `ExecuteMagics.execute`, line 72-73:
`self._wlmgr[args.wlm](cmd + extra_cmd, args.shell)` — exactly two
positional arguments. -/
def executeBuildMgr (wlm defaultMgr : String) (cfg : ConfigArgs)
    (cmd : List String) (shell : String) : Option (Except PyErr BackendName) :=
  (registryLookup wlm).map
    (fun b => pyCallCtor b [.listv (cmd ++ extraCmd wlm defaultMgr cfg), .strv shell])

end BatchSched


namespace BatchSched

/-! ## Concrete states and oracles used by witnesses and counterexamples -/

/-- A freshly constructed `SlurmMgr` state for a concrete job. -/
def slurmFresh : SlurmState :=
  { outerr_files := "/h/pes.%J"
    cmd := ["sbatch", "-n", "1"]
    args_jobid := some "jid"
    userns := []
    p := none
    is_started := false
    is_terminated := false
    waiting_steps := 0
    running_steps := 0
    jobid := 0
    out := none
    err := none }

/-- The concrete job after a successful submission of job 4242. -/
def slurmStarted : SlurmState :=
  { slurmFresh with is_started := true, jobid := 4242 }

/-- The concrete job after its polling loop ended. -/
def slurmDone : SlurmState :=
  { slurmStarted with is_terminated := true }

/-- File system holding both result files of job 4242. -/
def fsBoth : String → Option String := fun n =>
  if n = "/h/pes.4242.out" then some "OUT"
  else if n = "/h/pes.4242.err" then some "ERR" else none

/-- File system where only the `.out` result file of job 4242 exists. -/
def fsOnlyOut : String → Option String := fun n =>
  if n = "/h/pes.4242.out" then some "OUT" else none

/-- File system where only the `.err` result file of job 4242 exists. -/
def fsOnlyErr : String → Option String := fun n =>
  if n = "/h/pes.4242.err" then some "ERR" else none

/-- A concrete `SSHMgr` built for host `remotehost` with passthrough
arguments. -/
def sshFresh : SSHState := sshInit "remotehost" ["-p", "22"]

/-- A concrete process that is still running when polled. -/
def procLive : Proc :=
  { pid := 77, pollResult := none, stdoutContent := "", stderrContent := "" }

/-- A concrete process that has already exited when polled, with captured
output. -/
def procDead : Proc :=
  { pid := 78, pollResult := some 0, stdoutContent := "so", stderrContent := "se" }

/-- A concrete `SSHMgr` state with a live spawned process that has not
terminated yet. -/
def sshPre : SSHState :=
  { cmd := ["ssh", "-n", "remotehost"]
    is_terminated := false
    p := some procLive
    out := none
    err := none }

/-- A concrete `BasicMgr` state fresh out of the constructor. -/
def basicFresh : BasicState :=
  { cmd := ["bash"], p := some procLive, out := none, err := none }

end BatchSched

namespace BatchSched

/-! ## Theorems -/

/-- Claim C5 (code_bug).  The claim says every backend's `getOutput`
returns the defined `(None, None)` pair before the job reached a terminal
state.  The local and cluster backends do; but `SSHMgr.get_output` line
310 executes `return None` — the bare scalar, not a pair — so the remote
backend breaks the sentinel contract documented by `BaseMgr.get_output`
and relied upon by the `job_out, job_err = job_mgr.get_output()`
unpacking in `execute_magic.py`. -/
theorem c5_get_output_before_termination :
    sshGetOutput sshPre = .ok (sshPre, PyRet.scalarNone) ∧
    (PyRet.scalarNone == PyRet.pair none none) = false ∧
    basicGetOutput basicFresh = (none, none) ∧
    slurmGetOutput "PENDING" fsBoth slurmStarted =
      .ok (slurmStarted, (none, none), []) := by
  refine ⟨rfl, rfl, rfl, ?_⟩
  decide

/-- Claim C7 (code_bug).  `SSHMgr.submit` spawns `self.cmd + [content]`
(script as final argument) and polls once; on an already-exited process it
eagerly captures output as the claim says.  But on a live process —
the case the claim describes as recording the pid and returning a started
message — the next statement is `if _args.pid:` and `_args` is a local
variable of `__init__`, not an attribute, so submit raises `NameError`
before the pid can be recorded, exported or reported. -/
theorem c7_ssh_submit_undefined_args :
    sshSpawnArgv sshFresh "echo hi" =
      ["ssh", "-n", "remotehost", "-p", "22", "echo hi"] ∧
    sshSubmit "echo hi" (fun _ => .ok procLive) sshFresh = .error .nameError ∧
    sshSubmit "echo hi" (fun _ => .ok procDead) sshFresh =
      .ok ({ sshFresh with
              is_terminated := true
              p := some procDead
              out := some "so"
              err := some "se" },
        .pair (some "so") (some "se"), []) := by
  refine ⟨?_, ?_, ?_⟩ <;> decide

/-- Claim C8 (code_bug).  In `SlurmMgr.get_output` a missing `.out` file
is indeed reported and treated as empty while the `.err` file is still
read (third conjunct: both missing also survives).  But when the `.out`
file exists and the `.err` file is missing, the local variable `job_err`
was never assigned (the first `except` block assigns it, the second does
not), so the final `self.out, self.err = job_out, job_err` raises
`NameError` — contradicting the claim that a missing file is never fatal
for either file independently. -/
theorem c8_missing_result_file :
    slurmGetOutput "COMPLETED" fsOnlyOut slurmDone = .error .nameError ∧
    slurmGetOutput "COMPLETED" fsOnlyErr slurmDone =
      .ok ({ slurmDone with out := some "", err := some "ERR" },
        (some "", some "ERR"), ["File not found : /h/pes.4242.out\n"]) ∧
    slurmGetOutput "COMPLETED" (fun _ => none) slurmDone =
      .ok ({ slurmDone with out := some "", err := some "" },
        (some "", some ""),
        ["File not found : /h/pes.4242.out\n",
         "File not found : /h/pes.4242.err\n"]) := by
  refine ⟨?_, ?_, ?_⟩ <;> decide

/-- Claim C10 (code_bug).  `ExecuteMagics.execute` resolves the backend
name in `_wlmgr` and computes the default extra arguments, as claimed;
but the constructor call on lines 72-73 passes only two positional
arguments `(cmd + extra_cmd, args.shell)` while every backend `__init__`
requires three (`args`, `shell`, `userns`), so every invocation raises
`TypeError` before `submit` can be driven: the caller's namespace is
never passed. -/
theorem c10_execute_ctor_arity :
    registryLookup "" = some .basic ∧
    registryLookup "ssh" = some .ssh ∧
    registryLookup "slurm" = some .slurm ∧
    ctorRequired .basic = 3 ∧
    extraCmd "" "" (.dict [("", ["-opt"])]) = ["-opt"] ∧
    executeBuildMgr "" "" (.dict [("", ["-opt"])]) ["-x"] "/bin/bash" =
      some (.error .typeError) ∧
    executeBuildMgr "ssh" "" (.args []) ["--host", "h"] "/bin/bash" =
      some (.error .typeError) ∧
    executeBuildMgr "slurm" "" (.args []) [] "/bin/zsh" =
      some (.error .typeError) := by
  refine ⟨rfl, rfl, rfl, rfl, rfl, ?_, ?_, ?_⟩ <;> decide

end BatchSched

namespace BatchSched

/-- Claim C3 (confirmed).  `_interrupt` issues SIGINT, terminate, kill in
that fixed order: the issued trace is always a front segment of that
ladder; after a successful SIGINT a liveness poll showing the process
exited stops the ladder with the "interrupted" message; terminate is
attempted only after SIGINT succeeded and the first re-check showed the
process alive; kill only after terminate succeeded and the second
re-check showed it alive; and an `OSError` raised by any signalling call
makes `_interrupt` return normally with the error swallowed (the model's
return type is total — nothing propagates). -/
theorem c3_interrupt_escalation (o : ProcOracle) :
    ((interruptRun o).issued = [Sig.sigint] ∨
     (interruptRun o).issued = [Sig.sigint, Sig.term] ∨
     (interruptRun o).issued = [Sig.sigint, Sig.term, Sig.kill]) ∧
    (o.sigintRes = .ok () → o.poll1.isSome = true →
      interruptRun o = ⟨[Sig.sigint], some "Process is interrupted.", false⟩) ∧
    (Sig.term ∈ (interruptRun o).issued →
      o.sigintRes = .ok () ∧ o.poll1 = none) ∧
    (Sig.kill ∈ (interruptRun o).issued →
      o.sigintRes = .ok () ∧ o.poll1 = none ∧
      o.terminateRes = .ok () ∧ o.poll2 = none) ∧
    (∀ n, o.sigintRes = .error n →
      interruptRun o = ⟨[Sig.sigint], none, true⟩) ∧
    (∀ n, o.sigintRes = .ok () → o.poll1 = none → o.terminateRes = .error n →
      interruptRun o = ⟨[Sig.sigint, Sig.term], none, true⟩) ∧
    (∀ n, o.sigintRes = .ok () → o.poll1 = none → o.terminateRes = .ok () →
      o.poll2 = none → o.killRes = .error n →
      interruptRun o = ⟨[Sig.sigint, Sig.term, Sig.kill], none, true⟩) := by
  obtain ⟨s, p1, t, p2, k⟩ := o
  cases s <;> cases p1 <;> cases t <;> cases p2 <;> cases k <;>
    simp [interruptRun]

/-- Witness for C3: a process that survives SIGINT and terminate but is
successfully killed walks the whole ladder; one that exits after SIGINT
stops at the first rung. -/
theorem c3_witness :
    interruptRun ⟨.ok (), none, .ok (), none, .ok ()⟩ =
      ⟨[Sig.sigint, Sig.term, Sig.kill], some "Process is killed.", false⟩ ∧
    interruptRun ⟨.ok (), some 0, .ok (), none, .ok ()⟩ =
      ⟨[Sig.sigint], some "Process is interrupted.", false⟩ :=
  ⟨rfl, (c3_interrupt_escalation ⟨.ok (), some 0, .ok (), none, .ok ()⟩).2.1 rfl rfl⟩

end BatchSched

namespace BatchSched

/-- A selected step row always satisfies the selection guard `s < limit`
(the comprehension filters on it). -/
theorem selectStep_lt (s : Nat) (l t : Nat) (c : Char)
    (h : selectStep s = some (l, t, c)) : s < l := by
  unfold selectStep at h
  have hm : (l, t, c) ∈ stepTable.filter (fun v => decide (s < v.1)) := by
    cases hf : stepTable.filter (fun v => decide (s < v.1)) with
    | nil => rw [hf] at h; simp at h
    | cons a tl =>
        rw [hf] at h
        simp at h
        subst h
        exact List.mem_cons_self _ tl
  have := (List.mem_filter.mp hm).2
  simpa using this

/-- Counterexample to claim C4 as stated: at step count `s = 10^12` the
comprehension `[v for v in table if s < v[0]]` is empty, so no row — in
particular not `(600, '@')` — is selected and `_print_step_and_wait`
raises `IndexError` instead of sleeping 600s. -/
theorem c4_counterexample_huge_step :
    selectStep 1000000000000 = none ∧
    printStepAndWait 1000000000000 false = none := by
  refine ⟨?_, ?_⟩ <;> decide

/-- Claim C4 (corrected).  For `s` in `0..9` the selected row is
`(limit 10, 1s, '.')`; in `10..19` it is `(20, 10s, 'o')`; in `20..29` it
is `(30, 60s, 'O')`; and for `30 ≤ s` *below the source's `1e12`
sentinel* it is `(10^12, 600s, '@')` (at `s = 10^12` the selection fails
with `IndexError` — see the counterexample).  Whenever a row is selected,
`s` is below its limit, so the glyph is emitted exactly when not silent,
and the row's interval is slept. -/
theorem c4_progress_stepper (s : Nat) (silent : Bool) :
    (s < 10 → selectStep s = some (10, 1, '.')) ∧
    (10 ≤ s → s < 20 → selectStep s = some (20, 10, 'o')) ∧
    (20 ≤ s → s < 30 → selectStep s = some (30, 60, 'O')) ∧
    (30 ≤ s → s < 1000000000000 →
      selectStep s = some (1000000000000, 600, '@')) ∧
    (∀ l t c, selectStep s = some (l, t, c) →
      s < l ∧ printStepAndWait s silent =
        some ((if silent then none else some c), t)) := by
  refine ⟨?_, ?_, ?_, ?_, ?_⟩
  · intro h1
    have a2 : s < 20 := by omega
    have a3 : s < 30 := by omega
    have a4 : s < 1000000000000 := by omega
    simp [selectStep, stepTable, List.filter, h1, a2, a3, a4]
  · intro h1 h2
    have a1 : ¬ s < 10 := by omega
    have a3 : s < 30 := by omega
    have a4 : s < 1000000000000 := by omega
    simp [selectStep, stepTable, List.filter, a1, h2, a3, a4]
  · intro h1 h2
    have a1 : ¬ s < 10 := by omega
    have a2 : ¬ s < 20 := by omega
    have a4 : s < 1000000000000 := by omega
    simp [selectStep, stepTable, List.filter, a1, a2, h2, a4]
  · intro h1 h2
    have a1 : ¬ s < 10 := by omega
    have a2 : ¬ s < 20 := by omega
    have a3 : ¬ s < 30 := by omega
    simp [selectStep, stepTable, List.filter, a1, a2, a3, h2]
  · intro l t c h
    have hlt := selectStep_lt s l t c h
    refine ⟨hlt, ?_⟩
    unfold printStepAndWait
    rw [h]
    simp [hlt]

/-- Witness for C4: concrete step counts in each band, and the glyph/sleep
behaviour at `s = 15`. -/
theorem c4_witness :
    selectStep 3 = some (10, 1, '.') ∧
    selectStep 15 = some (20, 10, 'o') ∧
    selectStep 25 = some (30, 60, 'O') ∧
    selectStep 31 = some (1000000000000, 600, '@') ∧
    printStepAndWait 15 false = some (some 'o', 10) ∧
    printStepAndWait 15 true = some (none, 10) :=
  ⟨(c4_progress_stepper 3 false).1 (by decide),
   (c4_progress_stepper 15 false).2.1 (by decide) (by decide),
   (c4_progress_stepper 25 false).2.2.1 (by decide) (by decide),
   (c4_progress_stepper 31 false).2.2.2.1 (by decide) (by decide),
   ((c4_progress_stepper 15 false).2.2.2.2 20 10 'o'
     ((c4_progress_stepper 15 false).2.1 (by decide) (by decide))).2,
   ((c4_progress_stepper 15 true).2.2.2.2 20 10 'o'
     ((c4_progress_stepper 15 true).2.1 (by decide) (by decide))).2⟩

end BatchSched

namespace BatchSched

/-- Claim C9 (confirmed).  For each backend's spawn site (`BasicMgr`
and `SlurmMgr` constructors, `SSHMgr.submit`): a spawn failing with
`ENOENT` only yields the "Couldn't find program" diagnostic — no
exception reaches the caller and the handle keeps its freshly-created
state (no process, not started, not terminated) — while a spawn failing
with any other errno propagates the same `OSError` unchanged. -/
theorem c9_missing_executable :
    (∀ (args : List String) (e : Nat), e = ENOENT →
      basicInit args (fun _ => .error e) =
        .ok ({ cmd := "bash" :: args, p := none, out := none, err := none },
          ["Couldn\x27t find program: bash"])) ∧
    (∀ (args : List String) (e : Nat), e ≠ ENOENT →
      basicInit args (fun _ => .error e) = .error (.osError e)) ∧
    (∀ (outerr : String) (rest : List String) (aj : Option String) (e : Nat),
      e = ENOENT →
      ∃ st, slurmInit outerr rest aj (fun _ => .error e) =
          .ok (st, ["Couldn\x27t find program: sbatch"]) ∧
        st.p = none ∧ st.is_started = false ∧ st.is_terminated = false) ∧
    (∀ (outerr : String) (rest : List String) (aj : Option String) (e : Nat),
      e ≠ ENOENT →
      slurmInit outerr rest aj (fun _ => .error e) = .error (.osError e)) ∧
    (∀ (st : SSHState) (content : String) (e : Nat), e = ENOENT →
      sshSubmit content (fun _ => .error e) st =
        .ok ({ st with is_terminated := false }, .scalarNone,
          ["Couldn\x27t find program: " ++ st.cmd.headD ""])) ∧
    (∀ (st : SSHState) (content : String) (e : Nat), e ≠ ENOENT →
      sshSubmit content (fun _ => .error e) st = .error (.osError e)) := by
  refine ⟨?_, ?_, ?_, ?_, ?_, ?_⟩
  · intro args e he; subst he; rfl
  · intro args e he; simp [basicInit, spawnGuard, he]
  · intro outerr rest aj e he; subst he
    exact ⟨_, rfl, rfl, rfl, rfl⟩
  · intro outerr rest aj e he; simp [slurmInit, spawnGuard, he]
  · intro st content e he; subst he; rfl
  · intro st content e he; simp [sshSubmit, spawnGuard, he]

/-- Witness for C9: errno 2 (`ENOENT`) is absorbed into a diagnostic at
each spawn site, errno 13 propagates unchanged. -/
theorem c9_witness :
    basicInit ["-x"] (fun _ => .error 2) =
      .ok ({ cmd := "bash" :: ["-x"], p := none, out := none, err := none },
        ["Couldn\x27t find program: bash"]) ∧
    basicInit ["-x"] (fun _ => .error 13) = .error (.osError 13) ∧
    (∃ st, slurmInit "/h/pes.%J" [] none (fun _ => .error 2) =
        .ok (st, ["Couldn\x27t find program: sbatch"]) ∧
      st.p = none ∧ st.is_started = false ∧ st.is_terminated = false) ∧
    slurmInit "/h/pes.%J" [] none (fun _ => .error 13) =
      .error (.osError 13) ∧
    sshSubmit "c" (fun _ => .error 2) sshFresh =
      .ok ({ sshFresh with is_terminated := false }, .scalarNone,
        ["Couldn\x27t find program: " ++ sshFresh.cmd.headD ""]) ∧
    sshSubmit "c" (fun _ => .error 13) sshFresh = .error (.osError 13) :=
  ⟨c9_missing_executable.1 ["-x"] 2 rfl,
   c9_missing_executable.2.1 ["-x"] 13 (by decide),
   c9_missing_executable.2.2.1 "/h/pes.%J" [] none 2 rfl,
   c9_missing_executable.2.2.2.1 "/h/pes.%J" [] none 13 (by decide),
   c9_missing_executable.2.2.2.2.1 sshFresh "c" 2 rfl,
   c9_missing_executable.2.2.2.2.2 sshFresh "c" 13 (by decide)⟩

end BatchSched

namespace BatchSched

/-- Claim C1 (confirmed).  `SlurmMgr.submit` parses the acknowledgment:
when it starts with the marker `"Submitted batch job"` and its last
space-separated token parses as an integer `j`, the returned state stores
`j` as the external job id, is marked started, and `j` is exported under
the `--jobid` variable in the user namespace when one was given; when the
acknowledgment does not start with the marker, an error line is written,
the job is terminated with started still false, a subsequent
`wait_progress` is a no-op on the state for every status script, and
`get_output` returns the `(None, None)` sentinel for every file system
and final-state answer — no polling ever happens for it. -/
theorem c1_slurm_submit_ack (st : SlurmState) (o e : String)
    (hs : st.is_started = false) (_ht : st.is_terminated = false) :
    (∀ j : Int, pyStartsWith o "Submitted batch job" = true →
      pyInt ((pySplit o " ").getLastD "") = some j →
      ∃ st', slurmSubmit o e st = .ok (st', (o, e), []) ∧
        st'.is_started = true ∧ st'.jobid = j ∧
        (∀ v, st.args_jobid = some v → v ≠ "" →
          assocLookup st'.userns v = some j)) ∧
    (pyStartsWith o "Submitted batch job" = false →
      ∃ st', slurmSubmit o e st =
          .ok (st', (o, e), ["Error during job submission\n"]) ∧
        st'.is_started = false ∧ st'.is_terminated = true ∧
        (∀ silent script, slurmWaitProgress silent script st' = some st') ∧
        (∀ fin fs, slurmGetOutput fin fs st' = .ok (st', (none, none), []))) := by
  constructor
  · intro j hsw hj
    simp only [slurmSubmit, hsw, hj, if_true]
    refine ⟨_, rfl, ?_, ?_, ?_⟩
    · by_cases hb : pyTruthy st.args_jobid <;> simp [hb]
    · by_cases hb : pyTruthy st.args_jobid <;> simp [hb]
    · intro v hv hne
      have hb : pyTruthy (some v) = true := by simp [pyTruthy, hne]
      simp [hv, hb, assocLookup]
  · intro hsw
    simp only [slurmSubmit, hsw, Bool.false_eq_true, if_false]
    refine ⟨_, rfl, hs, rfl, ?_, ?_⟩
    · intro silent script
      simp [slurmWaitProgress, hs]
    · intro fin fs
      simp [slurmGetOutput, hs]

/-- Witness for C1: the concrete acknowledgments
`"Submitted batch job 4242\n"` (accepted, id 4242 stored and exported
under `"jid"`) and `"sbatch: error: oops\n"` (rejected: terminated, wait
a no-op, output the sentinel). -/
theorem c1_witness :
    (∃ st', slurmSubmit "Submitted batch job 4242\n" "" slurmFresh =
        .ok (st', ("Submitted batch job 4242\n", ""), []) ∧
      st'.is_started = true ∧ st'.jobid = 4242 ∧
      (∀ v, slurmFresh.args_jobid = some v → v ≠ "" →
        assocLookup st'.userns v = some 4242)) ∧
    (∃ st', slurmSubmit "sbatch: error: oops\n" "" slurmFresh =
        .ok (st', ("sbatch: error: oops\n", ""), ["Error during job submission\n"]) ∧
      st'.is_started = false ∧ st'.is_terminated = true ∧
      (∀ silent script, slurmWaitProgress silent script st' = some st') ∧
      (∀ fin fs, slurmGetOutput fin fs st' = .ok (st', (none, none), []))) :=
  ⟨(c1_slurm_submit_ack slurmFresh "Submitted batch job 4242\n" "" rfl rfl).1
      4242 (by decide) (by decide),
   (c1_slurm_submit_ack slurmFresh "sbatch: error: oops\n" "" rfl rfl).2
      (by decide)⟩

end BatchSched

namespace BatchSched

/-- Counterexample to claim C6 as stated: for the local backend,
`submit` memoizes the captured output (`self.out = "hello"`), but
`BasicMgr.get_output` returns `(None, None)` unconditionally — not the
memoized pair. -/
theorem c6_counterexample_basic :
    basicGetOutput (basicSubmit "hello" "woops" basicFresh).1 = (none, none) ∧
    (basicSubmit "hello" "woops" basicFresh).1.out = some "hello" ∧
    ((none : Option String) == some "hello") = false := by
  refine ⟨rfl, rfl, rfl⟩

/-- Claim C6 (corrected).  After any call of `get_output` that returned a
pair, calling `get_output` again returns the same state and the same
byte-identical pair — for the cluster backend even if the file system and
the re-queried final state have changed meanwhile (only the diagnostics
may differ), and for the remote backend unconditionally.  The local
backend's `get_output`, however, never returns the pair memoized by
`submit`: it is the constant `(None, None)` (submit itself already
returned the output). -/
theorem c6_memoization :
    (∀ (st st2 : SlurmState) (o e : Option String) (d1 : List String)
        (fin1 fin2 : String) (fs1 fs2 : String → Option String),
      slurmGetOutput fin1 fs1 st = .ok (st2, (o, e), d1) →
      ∃ d2, slurmGetOutput fin2 fs2 st2 = .ok (st2, (o, e), d2)) ∧
    (∀ (st st2 : SSHState) (r : PyRet),
      sshGetOutput st = .ok (st2, r) → sshGetOutput st2 = .ok (st2, r)) ∧
    (∀ st : BasicState, basicGetOutput st = (none, none)) := by
  refine ⟨?_, ?_, ?_⟩
  · intro st st2 o e d1 fin1 fin2 fs1 fs2 h
    simp only [slurmGetOutput] at h ⊢
    by_cases hc : st.is_started && st.is_terminated
    · rw [if_pos hc] at h
      by_cases hm : st.out.isNone && st.err.isNone
      · rw [if_pos hm] at h
        cases hr : readResultFiles fs1
            (pyReplace st.outerr_files "%J" (intStr st.jobid) ++ ".out")
            (pyReplace st.outerr_files "%J" (intStr st.jobid) ++ ".err") with
        | error exc => rw [hr] at h; simp at h
        | ok v =>
            obtain ⟨jo, je, ds⟩ := v
            rw [hr] at h
            simp only [Except.ok.injEq, Prod.mk.injEq] at h
            obtain ⟨h2, ⟨ho, he⟩, hd⟩ := h
            subst h2
            subst ho
            subst he
            have hc2 : (({ st with out := some jo, err := some je } :
                SlurmState).is_started &&
                ({ st with out := some jo, err := some je } :
                SlurmState).is_terminated) = true := hc
            rw [if_pos hc2, if_neg (by simp)]
            exact ⟨_, rfl⟩
      · rw [if_neg hm] at h
        simp only [Except.ok.injEq, Prod.mk.injEq] at h
        obtain ⟨h2, ⟨ho, he⟩, hd⟩ := h
        subst h2
        subst ho
        subst he
        rw [if_pos hc, if_neg hm]
        exact ⟨_, rfl⟩
    · rw [if_neg hc] at h
      simp only [Except.ok.injEq, Prod.mk.injEq] at h
      obtain ⟨h2, ⟨ho, he⟩, hd⟩ := h
      subst h2
      subst ho
      subst he
      rw [if_neg hc]
      exact ⟨_, rfl⟩
  · intro st st2 r h
    simp only [sshGetOutput] at h ⊢
    by_cases hc : st.is_terminated
    · rw [if_pos hc] at h
      by_cases hm : st.out.isNone && st.err.isNone
      · rw [if_pos hm] at h
        cases hp : st.p with
        | none => rw [hp] at h; simp at h
        | some p =>
            rw [hp] at h
            simp only [Except.ok.injEq, Prod.mk.injEq] at h
            obtain ⟨h2, hr⟩ := h
            subst h2
            subst hr
            have hc2 : ({ st with
                out := some p.stdoutContent
                err := some p.stderrContent } : SSHState).is_terminated = true := hc
            rw [if_pos hc2, if_neg (by simp)]
      · rw [if_neg hm] at h
        simp only [Except.ok.injEq, Prod.mk.injEq] at h
        obtain ⟨h2, hr⟩ := h
        subst h2
        subst hr
        rw [if_pos hc, if_neg hm]
    · rw [if_neg hc] at h
      simp only [Except.ok.injEq, Prod.mk.injEq] at h
      obtain ⟨h2, hr⟩ := h
      subst h2
      subst hr
      rw [if_neg hc]
  · intro st
    rfl

/-- Witness for C6: the concrete cluster job 4242 reads `("OUT", "ERR")`
once; a second call after the out-file vanished and the job state changed
to `FAILED` still returns the same pair. -/
theorem c6_witness :
    ∃ d2, slurmGetOutput "FAILED" fsOnlyErr
        { slurmDone with out := some "OUT", err := some "ERR" } =
      .ok ({ slurmDone with out := some "OUT", err := some "ERR" },
        (some "OUT", some "ERR"), d2) :=
  c6_memoization.1 slurmDone
    { slurmDone with out := some "OUT", err := some "ERR" }
    (some "OUT") (some "ERR") [] "COMPLETED" "FAILED" fsBoth fsOnlyErr
    (by decide)

end BatchSched

namespace BatchSched

/-- Claim C2 (confirmed).  For the acknowledgment
`"Submitted batch job 4242\n"` the stored external id is 4242 and the job
is started; with the scripted status answers
`PENDING, PENDING, RUNNING, COMPLETED` the polling loop takes exactly two
waiting steps and one running step and stops at the fourth query (the
three-answer script does not suffice); an unrecognized status string
drives no step and polling just continues; and `get_output` reads exactly
the two files whose names substitute 4242 into the filename template,
returning their contents. -/
theorem c2_successful_cluster_scenario :
    (∀ (st : SlurmState) (e : String),
      ∃ st', slurmSubmit "Submitted batch job 4242\n" e st =
          .ok (st', ("Submitted batch job 4242\n", e), []) ∧
        st'.jobid = 4242 ∧ st'.is_started = true) ∧
    (∀ st : SlurmState, st.is_started = true → st.waiting_steps = 0 →
      st.running_steps = 0 →
      (∃ st', slurmWaitProgress false
          ["PENDING", "PENDING", "RUNNING", "COMPLETED"] st = some st' ∧
        st'.waiting_steps = 2 ∧ st'.running_steps = 1 ∧
        st'.is_terminated = true) ∧
      slurmWaitProgress false ["PENDING", "PENDING", "RUNNING"] st = none ∧
      (∃ st', slurmWaitProgress false ["UNKNOWN", "COMPLETED"] st = some st' ∧
        st'.waiting_steps = 0 ∧ st'.running_steps = 0 ∧
        st'.is_terminated = true)) ∧
    (∀ (st : SlurmState) (oc ec : String) (fs : String → Option String),
      st.is_started = true → st.is_terminated = true → st.jobid = 4242 →
      st.out = none → st.err = none →
      fs (pyReplace st.outerr_files "%J" "4242" ++ ".out") = some oc →
      fs (pyReplace st.outerr_files "%J" "4242" ++ ".err") = some ec →
      slurmGetOutput "COMPLETED" fs st =
        .ok ({ st with out := some oc, err := some ec },
          (some oc, some ec), [])) := by
  refine ⟨?_, ?_, ?_⟩
  · intro st e
    have h1 : pyStartsWith "Submitted batch job 4242\n" "Submitted batch job" =
        true := by decide
    have h2 : pyInt ((pySplit "Submitted batch job 4242\n" " ").getLastD "") =
        some 4242 := by decide
    simp only [slurmSubmit, h1, h2, if_true]
    by_cases hb : pyTruthy st.args_jobid <;> simp [hb]
  · intro st h1 h2 h3
    obtain ⟨tpl, cmd, aj, uns, p, s1, s2, w, r, j, o, e⟩ := st
    dsimp only at h1 h2 h3
    subst h1
    subst h2
    subst h3
    exact ⟨⟨_, rfl, rfl, rfl, rfl⟩, rfl, ⟨_, rfl, rfl, rfl, rfl⟩⟩
  · intro st oc ec fs h1 h2 h3 h4 h5 h6 h7
    obtain ⟨tpl, cmd, aj, uns, p, s1, s2, w, r, j, o, e⟩ := st
    dsimp only at h1 h2 h3 h4 h5 h6 h7
    subst h1
    subst h2
    subst h3
    subst h4
    subst h5
    have hi : intStr (4242 : Int) = "4242" := by decide
    have hcc : pyContains "COMPLETED" "COMPLETED" = true := by decide
    simp [slurmGetOutput, readResultFiles, hi, hcc, h6, h7]

/-- Witness for C2: the concrete job 4242 in the concrete states
`slurmFresh`/`slurmStarted`/`slurmDone` with the file system `fsBoth`
holding `/h/pes.4242.out` and `/h/pes.4242.err`. -/
theorem c2_witness :
    (∃ st', slurmSubmit "Submitted batch job 4242\n" "" slurmFresh =
        .ok (st', ("Submitted batch job 4242\n", ""), []) ∧
      st'.jobid = 4242 ∧ st'.is_started = true) ∧
    (∃ st', slurmWaitProgress false
        ["PENDING", "PENDING", "RUNNING", "COMPLETED"] slurmStarted = some st' ∧
      st'.waiting_steps = 2 ∧ st'.running_steps = 1 ∧
      st'.is_terminated = true) ∧
    slurmGetOutput "COMPLETED" fsBoth slurmDone =
      .ok ({ slurmDone with out := some "OUT", err := some "ERR" },
        (some "OUT", some "ERR"), []) :=
  ⟨c2_successful_cluster_scenario.1 slurmFresh "",
   (c2_successful_cluster_scenario.2.1 slurmStarted rfl rfl rfl).1,
   c2_successful_cluster_scenario.2.2 slurmDone "OUT" "ERR" fsBoth rfl rfl rfl
     rfl rfl (by decide) (by decide)⟩

end BatchSched
